import Mathlib

/-!
Verification of the km_compile build orchestrator (compile.py).

This file gives a shallow embedding of the four core subsystems of the
script and proves the specified properties about them:

* the configuration model and flag resolver (Platform, CompileMode,
  TargetType, Define, PlatformTargetOptions, BuildTarget,
  get_common_defines, get_compiler_flags, get_linker_flags,
  get_output_name);
* the incremental change detector (compute_src_hashes,
  did_files_change) over an explicit detector state holding the source
  tree and the two persisted snapshot files;
* the artifact stager (remake_dest_and_copy_dir, with the recursive
  copy of shutil.copytree modelled as copytree);
* the deploy packager (win_deploy).

Python dictionaries keyed by Platform are modelled as functions
Platform to Option PlatformTargetOptions.  Space-joined flag strings
are modelled as ordered token lists; the join with a blank is the
serialization of such a list and preserves order.  The content digest
(hashlib.md5 of a file read in 4096 byte chunks, a library external to
the repository) is modelled as an abstract digest function on file
contents, which the spec requires to be collision resistant for
accidental content changes.
-/

namespace Compile

/-- The host platform enumeration of compile.py. -/
inductive Platform where
  | WINDOWS
  | LINUX
  | MAC
deriving DecidableEq, Fintype

/-- The compilation mode enumeration of compile.py. -/
inductive CompileMode where
  | DEBUG
  | INTERNAL
  | RELEASE
deriving DecidableEq, Fintype

/-- The target type enumeration of compile.py. -/
inductive TargetType where
  | EXECUTABLE
  | LIB_DYNAMIC
  | LIB_STATIC
deriving DecidableEq, Fintype

/-- The string Python produces when a TargetType member is formatted
into an error message. -/
def TargetType.py_str : TargetType → String
  | TargetType.EXECUTABLE => "TargetType.EXECUTABLE"
  | TargetType.LIB_DYNAMIC => "TargetType.LIB_DYNAMIC"
  | TargetType.LIB_STATIC => "TargetType.LIB_STATIC"

/-- A compiler macro: a name with an optional value (class Define). -/
structure Define where
  name : String
  value : Option String
deriving DecidableEq

/-- Model of Define.to_compiler_flag: renders "-Dname" or "-Dname=value". -/
def Define.to_compiler_flag (d : Define) : String :=
  let flag_str := "-D" ++ d.name
  match d.value with
  | some v => flag_str ++ "=" ++ v
  | none => flag_str

/-- Per-platform target options (class PlatformTargetOptions): ordered
defines, raw compiler flag tokens and raw linker flag tokens. -/
structure PlatformTargetOptions where
  defines : List Define
  compiler_flags : List String
  linker_flags : List String

/-- Model of PlatformTargetOptions.get_compiler_flags: the rendered defines
followed by the raw compiler flags, order preserved. -/
def PlatformTargetOptions.get_compiler_flags (o : PlatformTargetOptions) : List String :=
  o.defines.map Define.to_compiler_flag ++ o.compiler_flags

/-- Model of PlatformTargetOptions.get_linker_flags: the raw linker flags. -/
def PlatformTargetOptions.get_linker_flags (o : PlatformTargetOptions) : List String :=
  o.linker_flags

/-- A build target (class BuildTarget).  The Python dictionary from
Platform to PlatformTargetOptions is modelled as a function returning
Option, none meaning the platform has no entry. -/
structure BuildTarget where
  name : String
  source_file : String
  type : TargetType
  defines : List Define
  platform_options : Platform → Option PlatformTargetOptions

/-- Model of BuildTarget.get_output_name: the platform specific executable name
for EXECUTABLE targets; any other target type raises an unsupported
target type error, modelled as Except.error. -/
def BuildTarget.get_output_name (t : BuildTarget) (pf : Platform) : Except String String :=
  match t.type with
  | TargetType.EXECUTABLE =>
    match pf with
    | Platform.WINDOWS => Except.ok (t.name ++ "_win32.exe")
    | Platform.LINUX => Except.ok (t.name ++ "_linux")
    | Platform.MAC => Except.ok (t.name ++ "_macos")
  | ty => Except.error ("Unsupported target type: " ++ ty.py_str)

/-- Model of BuildTarget.get_compiler_flags: the target level defines, then, if
the platform has registered options, those options rendered by
PlatformTargetOptions.get_compiler_flags. -/
def BuildTarget.get_compiler_flags (t : BuildTarget) (pf : Platform) : List String :=
  let compiler_flags := t.defines.map Define.to_compiler_flag
  match t.platform_options pf with
  | some opts => compiler_flags ++ opts.get_compiler_flags
  | none => compiler_flags

/-- Model of BuildTarget.get_linker_flags: the registered platform linker
flags, or nothing when the platform has no entry. -/
def BuildTarget.get_linker_flags (t : BuildTarget) (pf : Platform) : List String :=
  match t.platform_options pf with
  | some opts => opts.get_linker_flags
  | none => []

/-- Model of get_common_defines: the platform identity macro plus the
GAME_INTERNAL and GAME_SLOW pair determined by the compile mode.  The
source reads the platform from the process global PLATFORM; it is an
explicit argument here. -/
def get_common_defines (pf : Platform) (compile_mode : CompileMode) : List Define :=
  let platform_defines : List Define :=
    match pf with
    | Platform.WINDOWS => [⟨"GAME_WIN32", some "1"⟩, ⟨"_CRT_SECURE_NO_WARNINGS", none⟩]
    | Platform.LINUX => [⟨"GAME_LINUX", some "1"⟩]
    | Platform.MAC => [⟨"GAME_MACOS", some "1"⟩]
  let mode_defines : List Define :=
    match compile_mode with
    | CompileMode.DEBUG => [⟨"GAME_INTERNAL", some "1"⟩, ⟨"GAME_SLOW", some "1"⟩]
    | CompileMode.INTERNAL => [⟨"GAME_INTERNAL", some "1"⟩, ⟨"GAME_SLOW", some "0"⟩]
    | CompileMode.RELEASE => [⟨"GAME_INTERNAL", some "0"⟩, ⟨"GAME_SLOW", some "0"⟩]
  platform_defines ++ mode_defines

/-- Value of the first define with the given name, as Python code
would resolve the macro; none when the name is absent. -/
def defineValue (ds : List Define) (n : String) : Option (Option String) :=
  (ds.find? (fun d => d.name == n)).map Define.value

/-- The resolved internal and slow macro pair of the common defines
for a platform and mode. -/
def internalSlowPair (pf : Platform) (m : CompileMode) :
    Option (Option String) × Option (Option String) :=
  (defineValue (get_common_defines pf m) "GAME_INTERNAL",
    defineValue (get_common_defines pf m) "GAME_SLOW")

/-- The compiler flag tokens contributed by the configuration model:
the common defines (rendered first in win_compile and linux_compile)
followed by the target flags from BuildTarget.get_compiler_flags.  The
platform specific literal flags that win_compile and linux_compile
insert in between are fixed command text outside the configuration
model. -/
def resolveCompilerFlags (t : BuildTarget) (pf : Platform) (m : CompileMode) : List String :=
  (get_common_defines pf m).map Define.to_compiler_flag ++ t.get_compiler_flags pf

/-- The linker flag tokens contributed by the configuration model,
assembled apart from the compiler flags. -/
def resolveLinkerFlags (t : BuildTarget) (pf : Platform) : List String :=
  t.get_linker_flags pf

/-- Full flag resolution for one target as win_compile and
linux_compile perform it: both flag lists are assembled and the output
name is resolved through BuildTarget.get_output_name, whose
unsupported target type error aborts the compile step. -/
def resolveFlags (t : BuildTarget) (pf : Platform) (m : CompileMode) :
    Except String (List String × List String × String) :=
  match t.get_output_name pf with
  | Except.error e => Except.error e
  | Except.ok out_name =>
    Except.ok (resolveCompilerFlags t pf m, resolveLinkerFlags t pf, out_name)

/-- State of the change detector: the sequence of regular files under
the source tree in the stable order of os.walk, each with its content,
plus the two persisted snapshot files.  src_hashes is the content of
the file at paths of key src-hashes and src_hashes_old the one at key
src-hashes-old; none means the file does not exist. -/
structure DetectorState where
  src_files : List (String × String)
  src_hashes : Option String
  src_hashes_old : Option String
deriving DecidableEq

/-- Serialized snapshot text as compute_src_hashes writes it: for each
file in walk order, its path on one line followed by the digest of its
content on the next line. -/
def snapshotText (md5 : String → String) : List (String × String) → String
  | [] => ""
  | (p, c) :: rest => p ++ "\n" ++ md5 c ++ "\n" ++ snapshotText md5 rest

/-- Model of compute_src_hashes: overwrite the current snapshot file with the
serialized listing of every regular file under the source tree.  The
digest function md5 models calc_file_md5, whose chunked md5 of the
file content comes from the external hashlib library. -/
def compute_src_hashes (md5 : String → String) (s : DetectorState) : DetectorState :=
  ⟨s.src_files, some (snapshotText md5 s.src_files), s.src_hashes_old⟩

/-- Model of did_files_change: if no current snapshot exists, report changed
and return at once; otherwise remove the stale old snapshot, rename
current to old, recompute the current snapshot, and report changed
when the byte sizes or the contents of the two files differ. -/
def did_files_change (md5 : String → String) (s : DetectorState) : Bool × DetectorState :=
  match s.src_hashes with
  | none => (true, s)
  | some cur_text =>
    let rotated : DetectorState := ⟨s.src_files, none, some cur_text⟩
    let s2 := compute_src_hashes md5 rotated
    let new_text := s2.src_hashes.getD ""
    let old_text := s2.src_hashes_old.getD ""
    ((new_text.utf8ByteSize != old_text.utf8ByteSize) || (new_text != old_text), s2)

/-- External modification of the source tree between two detector
invocations: the tree is replaced, the snapshot files are untouched. -/
def withSrcFiles (s : DetectorState) (t : List (String × String)) : DetectorState :=
  ⟨t, s.src_hashes, s.src_hashes_old⟩

/-- One single file change of the source tree between two detector
invocations: the content of one file is modified in place, or one file
is added somewhere in the walk order, or one file is removed. -/
def SingleEdit (t t' : List (String × String)) : Prop :=
  (∃ pre p c c' post, c ≠ c' ∧
    t = pre ++ (p, c) :: post ∧ t' = pre ++ (p, c') :: post) ∨
  (∃ pre e post, t = pre ++ post ∧ t' = pre ++ e :: post) ∨
  (∃ pre e post, t = pre ++ e :: post ∧ t' = pre ++ post)

/-- Character level view of the serialized snapshot, used to reason
about equality of snapshot files. -/
def snapData (md5 : String → String) : List (String × String) → List Char
  | [] => []
  | (p, c) :: rest => p.data ++ '\n' :: ((md5 c).data ++ '\n' :: snapData md5 rest)

/-- A directory entry of the staged trees: a regular file with its
content, or a subdirectory with its named entries in listing order.
Entries of any other kind are skipped by the copy loop of
remake_dest_and_copy_dir and are not modelled. -/
inductive Entry where
  | file (content : String)
  | dir (entries : List (String × Entry))

/-- Recursive directory copy as shutil.copytree performs it on the
entry list of a directory: files keep their content, subdirectories
are copied recursively. -/
def copytree : List (String × Entry) → List (String × Entry)
  | [] => []
  | (n, Entry.file c) :: rest => (n, Entry.file c) :: copytree rest
  | (n, Entry.dir es) :: rest => (n, Entry.dir (copytree es)) :: copytree rest

/-- Model of remake_dest_and_copy_dir: any previous destination tree is removed
in its entirety (shutil.rmtree), the destination is recreated empty
(os.makedirs), and then every entry of the source listing is copied in
order, files through shutil.copy2 and directories through
shutil.copytree. -/
def remake_dest_and_copy_dir (src : List (String × Entry))
    (dst_prev : Option (List (String × Entry))) : List (String × Entry) :=
  List.foldl
    (fun dst entry =>
      match entry with
      | (file_name, Entry.file c) => dst ++ [(file_name, Entry.file c)]
      | (file_name, Entry.dir es) => dst ++ [(file_name, Entry.dir (copytree es))])
    [] src

/-- Model of win_deploy: stage the build tree into the deploy bundle directory
with remake_dest_and_copy_dir, delete every top level entry whose name
is not in the deploy allow list, and archive the bundle directory.
The returned list is the top level member list of the bundle root
inside the produced archive, since shutil.make_archive with the bundle
directory as base_dir stores exactly that directory. -/
def win_deploy (deploy_files : List String) (build_tree : List (String × Entry))
    (prev_bundle : Option (List (String × Entry))) : List (String × Entry) :=
  let bundle := remake_dest_and_copy_dir build_tree prev_bundle
  bundle.filter (fun entry => deploy_files.contains entry.1)

/-- The character data of the serialized snapshot is snapData. -/
theorem snapshotText_data (md5 : String → String) (t : List (String × String)) :
    (snapshotText md5 t).data = snapData md5 t := by
  induction t with
  | nil => rfl
  | cons pc rest ih =>
    obtain ⟨p, c⟩ := pc
    have hnl : ("\n" : String).data = ['\n'] := rfl
    simp [snapshotText, snapData, String.data_append, hnl, ih]

/-- snapData distributes over list append. -/
theorem snapData_append (md5 : String → String) (xs ys : List (String × String)) :
    snapData md5 (xs ++ ys) = snapData md5 xs ++ snapData md5 ys := by
  induction xs with
  | nil => rfl
  | cons pc rest ih =>
    obtain ⟨p, c⟩ := pc
    simp [snapData, ih]

/-- If the serialized snapshots of two trees that differ only in the
content of one file at the same walk position are equal, the digests
of the two contents are equal. -/
theorem snapData_modify (md5 : String → String) (pre post : List (String × String))
    (p c c' : String)
    (h : snapData md5 (pre ++ (p, c) :: post) = snapData md5 (pre ++ (p, c') :: post)) :
    md5 c = md5 c' := by
  rw [snapData_append, snapData_append] at h
  have h1 : snapData md5 ((p, c) :: post) = snapData md5 ((p, c') :: post) :=
    List.append_cancel_left h
  simp only [snapData] at h1
  have h2 := List.append_cancel_left h1
  injection h2 with _ h3
  have h4 : (md5 c).data = (md5 c').data := List.append_cancel_right h3
  exact String.ext h4

/-- Serialized length of a tree with one extra file record. -/
theorem snapData_insert_length (md5 : String → String)
    (pre post : List (String × String)) (e : String × String) :
    (snapData md5 (pre ++ e :: post)).length
      = (snapData md5 (pre ++ post)).length
        + (e.1.data.length + ((md5 e.2).data.length + 2)) := by
  obtain ⟨p, c⟩ := e
  rw [snapData_append, snapData_append]
  simp [snapData, List.length_append]
  omega

/-- A single file edit of the source tree changes the serialized
snapshot, provided the digest separates the two file contents. -/
theorem snapshotText_ne_of_single_edit (md5 : String → String)
    (hinj : Function.Injective md5) (t t' : List (String × String))
    (h : SingleEdit t t') : snapshotText md5 t' ≠ snapshotText md5 t := by
  intro heq
  have hd : snapData md5 t' = snapData md5 t := by
    rw [← snapshotText_data, ← snapshotText_data, heq]
  rcases h with ⟨pre, p, c, c', post, hcc, ht, ht'⟩ | ⟨pre, e, post, ht, ht'⟩ |
    ⟨pre, e, post, ht, ht'⟩
  · subst ht; subst ht'
    exact hcc (hinj (snapData_modify md5 pre post p c c' hd.symm))
  · subst ht; subst ht'
    have hlen := congrArg List.length hd
    rw [snapData_insert_length] at hlen
    omega
  · subst ht; subst ht'
    have hlen := congrArg List.length hd
    rw [snapData_insert_length] at hlen
    omega

/-- The recursive copy reproduces the source entries exactly. -/
theorem copytree_id : ∀ l : List (String × Entry), copytree l = l
  | [] => by simp [copytree]
  | (n, Entry.file c) :: rest => by
    simp [copytree, copytree_id rest]
  | (n, Entry.dir es) :: rest => by
    simp [copytree, copytree_id es, copytree_id rest]

/-- The copy loop of remake_dest_and_copy_dir appends the copied
source entries to the accumulated destination listing. -/
theorem remake_loop_append (src acc : List (String × Entry)) :
    List.foldl
      (fun dst entry =>
        match entry with
        | (file_name, Entry.file c) => dst ++ [(file_name, Entry.file c)]
        | (file_name, Entry.dir es) => dst ++ [(file_name, Entry.dir (copytree es))])
      acc src = acc ++ copytree src := by
  induction src generalizing acc with
  | nil => simp [copytree]
  | cons e rest ih =>
    obtain ⟨n, ent⟩ := e
    cases ent with
    | file c => simp [copytree, ih]
    | dir es => simp [copytree, ih]

/-- remake_dest_and_copy_dir reproduces the source tree whatever the
previous destination state was. -/
theorem remake_eq_src (src : List (String × Entry))
    (dst_prev : Option (List (String × Entry))) :
    remake_dest_and_copy_dir src dst_prev = src := by
  rw [remake_dest_and_copy_dir, remake_loop_append, copytree_id]
  rfl

/-- Claim C1: for every platform, the common defines resolve the
GAME_INTERNAL and GAME_SLOW pair exactly by the fixed truth table,
DEBUG to (1, 1), INTERNAL to (1, 0) and RELEASE to (0, 0), and any two
distinct modes resolve to distinct pairs. -/
theorem common_defines_truth_table (pf : Platform) :
    internalSlowPair pf CompileMode.DEBUG = (some (some "1"), some (some "1")) ∧
    internalSlowPair pf CompileMode.INTERNAL = (some (some "1"), some (some "0")) ∧
    internalSlowPair pf CompileMode.RELEASE = (some (some "0"), some (some "0")) ∧
    ∀ m1 m2 : CompileMode, m1 ≠ m2 → internalSlowPair pf m1 ≠ internalSlowPair pf m2 := by
  cases pf <;> exact ⟨by decide, by decide, by decide, by decide⟩

/-- Witness for C1 at a concrete platform and mode pair. -/
theorem common_defines_truth_table_witness :
    internalSlowPair Platform.LINUX CompileMode.DEBUG ≠
      internalSlowPair Platform.LINUX CompileMode.RELEASE :=
  (common_defines_truth_table Platform.LINUX).2.2.2 CompileMode.DEBUG CompileMode.RELEASE
    (by decide)

/-- Claim C2: for every target, platform and mode, the resolved
compiler flag token list is exactly the common defines derived from
platform and mode, then the target level defines, then the defines and
compiler flags of the platform options registered for the platform,
each sub list in order; a missing platform entry contributes nothing
and resolution still succeeds; the linker flags form a separate list
holding exactly the registered platform linker flags. -/
theorem resolve_compiler_flags_concat (t : BuildTarget) (pf : Platform) (m : CompileMode) :
    resolveCompilerFlags t pf m =
      (get_common_defines pf m).map Define.to_compiler_flag ++
        (t.defines.map Define.to_compiler_flag ++
          (match t.platform_options pf with
           | some opts => opts.defines.map Define.to_compiler_flag ++ opts.compiler_flags
           | none => [])) ∧
    resolveLinkerFlags t pf =
      (match t.platform_options pf with
       | some opts => opts.linker_flags
       | none => []) := by
  cases h : t.platform_options pf <;>
    simp [resolveCompilerFlags, resolveLinkerFlags, BuildTarget.get_compiler_flags,
      BuildTarget.get_linker_flags, PlatformTargetOptions.get_compiler_flags,
      PlatformTargetOptions.get_linker_flags, h]

/-- Claim C3: flag resolution for a target whose type is not
EXECUTABLE fails with the explicit unsupported target type error of
BuildTarget.get_output_name instead of returning flags. -/
theorem resolve_flags_unsupported_target_type (t : BuildTarget) (pf : Platform)
    (m : CompileMode) (h : t.type ≠ TargetType.EXECUTABLE) :
    resolveFlags t pf m =
      Except.error ("Unsupported target type: " ++ t.type.py_str) := by
  cases ht : t.type with
  | EXECUTABLE => exact absurd ht h
  | LIB_DYNAMIC => simp [resolveFlags, BuildTarget.get_output_name, ht]
  | LIB_STATIC => simp [resolveFlags, BuildTarget.get_output_name, ht]

/-- Witness for C3: a concrete dynamic library target fails to
resolve. -/
theorem resolve_flags_unsupported_target_type_witness :
    resolveFlags
        ⟨"game", "src/main.cpp", TargetType.LIB_DYNAMIC, [], fun _ => none⟩
        Platform.WINDOWS CompileMode.DEBUG =
      Except.error ("Unsupported target type: " ++ TargetType.LIB_DYNAMIC.py_str) :=
  resolve_flags_unsupported_target_type
    ⟨"game", "src/main.cpp", TargetType.LIB_DYNAMIC, [], fun _ => none⟩
    Platform.WINDOWS CompileMode.DEBUG (by decide)

/-- Claim C4 counterexample: on a state with no current snapshot and a
nonempty source tree, did_files_change reports changed but the
resulting state still has no current snapshot file, so the detector
invocation did not write one record per file as claimed. -/
theorem detector_first_run_counterexample :
    (did_files_change (fun c => c)
      ⟨[("/proj/src/main.cpp", "abc")], none, none⟩).1 = true ∧
    (did_files_change (fun c => c)
      ⟨[("/proj/src/main.cpp", "abc")], none, none⟩).2.src_hashes = none :=
  ⟨rfl, rfl⟩

/-- Claim C4 amended: when no current snapshot exists,
did_files_change reports changed unconditionally and writes nothing;
the fresh current snapshot with one path and digest record per regular
file is produced only by a separate compute_src_hashes call. -/
theorem detector_first_run_changed_no_write (md5 : String → String) (s : DetectorState)
    (h : s.src_hashes = none) :
    (did_files_change md5 s).1 = true ∧
    (did_files_change md5 s).2.src_hashes = none ∧
    (did_files_change md5 s).2 = s ∧
    (compute_src_hashes md5 s).src_hashes = some (snapshotText md5 s.src_files) := by
  refine ⟨?_, ?_, ?_, rfl⟩ <;> simp [did_files_change, h]

/-- Witness for the amended C4 at a concrete detector state. -/
theorem detector_first_run_changed_no_write_witness :
    (did_files_change (fun c => c) ⟨[("/a/src/x.c", "u")], none, some "stale"⟩).1 = true ∧
    (did_files_change (fun c => c)
      ⟨[("/a/src/x.c", "u")], none, some "stale"⟩).2.src_hashes = none ∧
    (did_files_change (fun c => c) ⟨[("/a/src/x.c", "u")], none, some "stale"⟩).2 =
      ⟨[("/a/src/x.c", "u")], none, some "stale"⟩ ∧
    (compute_src_hashes (fun c => c) ⟨[("/a/src/x.c", "u")], none, some "stale"⟩).src_hashes =
      some (snapshotText (fun c => c) [("/a/src/x.c", "u")]) :=
  detector_first_run_changed_no_write (fun c => c)
    ⟨[("/a/src/x.c", "u")], none, some "stale"⟩ rfl

/-- Claim C5: when a current snapshot exists, did_files_change deletes
the stale old snapshot, renames current to old, recomputes the current
snapshot over every file of the source tree, and reports changed
exactly when the byte size of the new snapshot differs from the old
one or their serialized contents differ. -/
theorem detector_rotation_and_decision (md5 : String → String) (s : DetectorState)
    (cur_text : String) (h : s.src_hashes = some cur_text) :
    (did_files_change md5 s).2 =
      ⟨s.src_files, some (snapshotText md5 s.src_files), some cur_text⟩ ∧
    ((did_files_change md5 s).1 = true ↔
      (snapshotText md5 s.src_files).utf8ByteSize ≠ cur_text.utf8ByteSize ∨
        snapshotText md5 s.src_files ≠ cur_text) := by
  constructor
  · simp [did_files_change, h, compute_src_hashes]
  · simp [did_files_change, h, compute_src_hashes, Bool.or_eq_true, bne_iff_ne]

/-- Witness for C5 at a concrete detector state. -/
theorem detector_rotation_and_decision_witness :
    (did_files_change (fun c => c) ⟨[("/p/src/f.c", "x")], some "old", none⟩).2 =
      ⟨[("/p/src/f.c", "x")],
        some (snapshotText (fun c => c) [("/p/src/f.c", "x")]), some "old"⟩ ∧
    ((did_files_change (fun c => c) ⟨[("/p/src/f.c", "x")], some "old", none⟩).1 = true ↔
      (snapshotText (fun c => c) [("/p/src/f.c", "x")]).utf8ByteSize ≠
          ("old" : String).utf8ByteSize ∨
        snapshotText (fun c => c) [("/p/src/f.c", "x")] ≠ "old") :=
  detector_rotation_and_decision (fun c => c)
    ⟨[("/p/src/f.c", "x")], some "old", none⟩ "old" rfl

/-- Claim C6 counterexample: from a state with no current snapshot,
two successive detector invocations with no intervening file change
both report changed, because the first invocation writes no snapshot
for the second to compare against. -/
theorem detector_second_call_counterexample :
    (did_files_change (fun c => c)
      (did_files_change (fun c => c) ⟨[("/q/src/a.c", "x")], none, none⟩).2).1 = true :=
  rfl

/-- Claim C6 amended: two successive detector invocations with no
intervening file change make the second one report unchanged, provided
a current snapshot file exists at the first invocation; when none
exists, neither invocation writes one and the second still reports
changed. -/
theorem detector_second_call_unchanged (md5 : String → String) (s : DetectorState)
    (cur_text : String) (h : s.src_hashes = some cur_text) :
    (did_files_change md5 (did_files_change md5 s).2).1 = false := by
  simp [did_files_change, h, compute_src_hashes]

/-- Witness for the amended C6 at a concrete detector state. -/
theorem detector_second_call_unchanged_witness :
    (did_files_change (fun c => c)
      (did_files_change (fun c => c) ⟨[("/q/src/a.c", "x")], some "z", none⟩).2).1 = false :=
  detector_second_call_unchanged (fun c => c)
    ⟨[("/q/src/a.c", "x")], some "z", none⟩ "z" rfl

/-- Claim C7: modifying the content of a single file, adding a single
file, or removing a single file of the source tree between two
detector invocations makes the later invocation report changed; the
digest is assumed to separate distinct contents, which is the
collision resistance the spec demands of the external md5 digest. -/
theorem detector_single_edit_changed (md5 : String → String)
    (hinj : Function.Injective md5) (s : DetectorState)
    (t' : List (String × String)) (h : SingleEdit s.src_files t') :
    (did_files_change md5 (withSrcFiles (did_files_change md5 s).2 t')).1 = true := by
  cases hc : s.src_hashes with
  | none => simp [did_files_change, hc, withSrcFiles]
  | some c0 =>
    have hne := snapshotText_ne_of_single_edit md5 hinj s.src_files t' h
    simp [did_files_change, hc, compute_src_hashes, withSrcFiles, Bool.or_eq_true,
      bne_iff_ne]
    exact Or.inr hne

/-- Witness for C7: one concrete file content modification is detected
as changed. -/
theorem detector_single_edit_changed_witness :
    (did_files_change id
      (withSrcFiles
        (did_files_change id ⟨[("/w/src/m.c", "old")], some "snap", none⟩).2
        [("/w/src/m.c", "new")])).1 = true :=
  detector_single_edit_changed id Function.injective_id
    ⟨[("/w/src/m.c", "old")], some "snap", none⟩ [("/w/src/m.c", "new")]
    (Or.inl ⟨[], "/w/src/m.c", "old", "new", [], by decide, rfl, rfl⟩)

/-- Claim C10: with no current snapshot on disk, did_files_change
returns the changed verdict at once and performs no write at all - the
returned state is the input state, so no snapshot file is created; the
fresh snapshot is produced only by compute_src_hashes, which the main
build flow runs separately. -/
theorem did_files_change_missing_snapshot_frame (md5 : String → String)
    (s : DetectorState) (h : s.src_hashes = none) :
    did_files_change md5 s = (true, s) ∧
    (compute_src_hashes md5 s).src_hashes = some (snapshotText md5 s.src_files) := by
  constructor
  · simp [did_files_change, h]
  · rfl

/-- Witness for C10 at a concrete detector state. -/
theorem did_files_change_missing_snapshot_frame_witness :
    did_files_change (fun c => c) ⟨[("/r/src/b.c", "bb")], none, none⟩ =
      (true, ⟨[("/r/src/b.c", "bb")], none, none⟩) ∧
    (compute_src_hashes (fun c => c) ⟨[("/r/src/b.c", "bb")], none, none⟩).src_hashes =
      some (snapshotText (fun c => c) [("/r/src/b.c", "bb")]) :=
  did_files_change_missing_snapshot_frame (fun c => c)
    ⟨[("/r/src/b.c", "bb")], none, none⟩ rfl

/-- Claim C8: after a successful remake_dest_and_copy_dir call the
destination tree is byte identical in content to the source tree at
call time, and no entry of any prior destination state survives - the
result is the same whatever the previous destination was. -/
theorem remake_dest_and_copy_exact (src : List (String × Entry))
    (prev prev' : Option (List (String × Entry))) :
    remake_dest_and_copy_dir src prev = src ∧
    remake_dest_and_copy_dir src prev = remake_dest_and_copy_dir src prev' := by
  refine ⟨remake_eq_src src prev, ?_⟩
  rw [remake_eq_src, remake_eq_src]

/-- Claim C9: the deploy packager keeps exactly the top level entries
of the staged tree whose names are in the allow list, so the archive
member set under the bundle root equals the intersection of the allow
list with the staged tree names, no file outside the allow list is
included, and the member set does not depend on the traversal order of
the staged tree. -/
theorem deploy_allowlist_filter (A : List String) (T : List (String × Entry))
    (prev : Option (List (String × Entry))) :
    (∀ e : String × Entry, e ∈ win_deploy A T prev ↔ e ∈ T ∧ e.1 ∈ A) ∧
    (∀ n : String, n ∈ (win_deploy A T prev).map Prod.fst ↔
      n ∈ T.map Prod.fst ∧ n ∈ A) ∧
    (∀ T' : List (String × Entry), T.Perm T' →
      (win_deploy A T prev).Perm (win_deploy A T' prev)) := by
  have hw : ∀ (T₀ : List (String × Entry)),
      win_deploy A T₀ prev = T₀.filter (fun entry => A.contains entry.1) := by
    intro T₀
    rw [win_deploy, remake_eq_src]
  refine ⟨?_, ?_, ?_⟩
  · intro e
    rw [hw]
    simp [List.mem_filter]
  · intro n
    rw [hw]
    simp only [List.mem_map, List.mem_filter]
    constructor
    · rintro ⟨e, ⟨heT, heA⟩, rfl⟩
      exact ⟨⟨e, heT, rfl⟩, by simpa using heA⟩
    · rintro ⟨⟨e, heT, rfl⟩, hA⟩
      exact ⟨e, ⟨heT, by simpa using hA⟩, rfl⟩
  · intro T' hperm
    rw [hw, hw]
    exact hperm.filter _

/-- Witness for C9: a concrete staged tree filtered by a concrete
allow list, compared against a reordering of the same tree. -/
theorem deploy_allowlist_filter_witness :
    (win_deploy ["app_linux", "data"]
      [("app_linux", Entry.file "bin"), ("app_linux.map", Entry.file "m")] none).Perm
      (win_deploy ["app_linux", "data"]
        [("app_linux.map", Entry.file "m"), ("app_linux", Entry.file "bin")] none) :=
  (deploy_allowlist_filter ["app_linux", "data"]
      [("app_linux", Entry.file "bin"), ("app_linux.map", Entry.file "m")] none).2.2
    [("app_linux.map", Entry.file "m"), ("app_linux", Entry.file "bin")]
    (List.Perm.swap ("app_linux.map", Entry.file "m") ("app_linux", Entry.file "bin") [])

end Compile
